import Mathlib

/-!
Shallow embedding of `src/strava2gpx.py` (class `Strava2GPX`) together with
theorems checking the natural-language specification against it.

The pure merge/render logic, the stream selection, the pagination loop, the
token-refresh response handling and the query construction of the streams
fetch are translated directly from the source.  Network transport and file
I/O are external collaborators: HTTP responses and fetched JSON payloads are
parameters of the embedded operations, and file writes are recorded in the
returned `ExportResult` value (paths written to, accumulated file contents).
-/

namespace Strava2GPX

/- ### Calendar / datetime model

Models the Python `datetime` library operations used by
`add_seconds_to_timestamp` (lines 250-254): `datetime.fromisoformat` on naive
`YYYY-MM-DDTHH:MM:SS` timestamps, `timedelta(seconds=s)` addition, and
`datetime.isoformat`.  Calendar arithmetic follows the standard proleptic
Gregorian civil-from-days / days-from-civil conversions. -/

structure DateTime where
  year : Nat
  month : Nat
  day : Nat
  hour : Nat
  minute : Nat
  second : Nat
deriving DecidableEq

def isLeap (y : Nat) : Bool :=
  y % 4 == 0 && (y % 100 != 0 || y % 400 == 0)

def daysInMonth (y m : Nat) : Nat :=
  if m = 2 then (if isLeap y then 29 else 28)
  else if m = 4 ∨ m = 6 ∨ m = 9 ∨ m = 11 then 30
  else 31

/-- Days since 1970-01-01 of a civil date (proleptic Gregorian). -/
def daysFromCivil (y mo d : Nat) : Int :=
  let yy : Int := if mo ≤ 2 then (y : Int) - 1 else (y : Int)
  let era : Int := Int.ediv yy 400
  let yoe : Int := yy - era * 400
  let mp : Int := if 2 < mo then (mo : Int) - 3 else (mo : Int) + 9
  let doy : Int := Int.ediv (153 * mp + 2) 5 + (d : Int) - 1
  let doe : Int := yoe * 365 + Int.ediv yoe 4 - Int.ediv yoe 100 + doy
  era * 146097 + doe - 719468

/-- Civil date (year, month, day) of a count of days since 1970-01-01. -/
def civilFromDays (z0 : Int) : Nat × Nat × Nat :=
  let z : Int := z0 + 719468
  let era : Int := Int.ediv z 146097
  let doe : Int := z - era * 146097
  let yoe : Int := Int.ediv (doe - Int.ediv doe 1460 + Int.ediv doe 36524 - Int.ediv doe 146096) 365
  let y : Int := yoe + era * 400
  let doy : Int := doe - (365 * yoe + Int.ediv yoe 4 - Int.ediv yoe 100)
  let mp : Int := Int.ediv (5 * doy + 2) 153
  let d : Int := doy - Int.ediv (153 * mp + 2) 5 + 1
  let mo : Int := if mp < 10 then mp + 3 else mp - 9
  let y2 : Int := if mo ≤ 2 then y + 1 else y
  (Int.toNat y2, Int.toNat mo, Int.toNat d)

def toEpochSeconds (dtm : DateTime) : Int :=
  daysFromCivil dtm.year dtm.month dtm.day * 86400
    + dtm.hour * 3600 + dtm.minute * 60 + dtm.second

def ofEpochSeconds (t : Int) : DateTime :=
  let days := Int.ediv t 86400
  let sod := Int.toNat (Int.emod t 86400)
  let c := civilFromDays days
  ⟨c.1, c.2.1, c.2.2, sod / 3600, sod % 3600 / 60, sod % 60⟩

/-- Models `start_time + timedelta(seconds=seconds)` on naive datetimes. -/
def addSeconds (dtm : DateTime) (s : Int) : DateTime :=
  ofEpochSeconds (toEpochSeconds dtm + s)

/-- Fixed-width zero-padded decimal digits of `x % 10 ^ p` (`p` characters),
as produced by Python `%0pd` formatting for in-range values. -/
def padDigits : Nat → Nat → List Char
  | 0, _ => []
  | p + 1, x => padDigits p (x / 10) ++ [Nat.digitChar (x % 10)]

/-- Models Python `datetime.isoformat()` on a naive datetime with zero
microseconds: `YYYY-MM-DDTHH:MM:SS`. -/
def isoformat (dtm : DateTime) : String :=
  String.mk (padDigits 4 dtm.year ++ '-' :: padDigits 2 dtm.month
    ++ '-' :: padDigits 2 dtm.day ++ 'T' :: padDigits 2 dtm.hour
    ++ ':' :: padDigits 2 dtm.minute ++ ':' :: padDigits 2 dtm.second)

def splitOnChar (c : Char) : List Char → List (List Char)
  | [] => [[]]
  | x :: xs =>
    match splitOnChar c xs with
    | [] => [[x]]
    | g :: gs => if x = c then [] :: g :: gs else (x :: g) :: gs

def digitsToNat (l : List Char) : Option Nat :=
  if l ≠ [] ∧ l.all Char.isDigit then
    some (l.foldl (fun a c => a * 10 + (c.toNat - '0'.toNat)) 0)
  else none

/-- Models Python `datetime.fromisoformat` on the naive
`YYYY-MM-DDTHH:MM:SS` timestamp format used by the renderer; invalid
strings raise `ValueError` in Python, modelled as `none`. -/
def fromisoformat (s : String) : Option DateTime :=
  match splitOnChar 'T' s.data with
  | [dpart, tpart] =>
    (match splitOnChar '-' dpart, splitOnChar ':' tpart with
     | [ys, mos, dys], [hs, mins, secs] =>
       (match digitsToNat ys, digitsToNat mos, digitsToNat dys,
              digitsToNat hs, digitsToNat mins, digitsToNat secs with
        | some y, some mo, some dy, some h, some mi, some s2 =>
          if ys.length = 4 ∧ mos.length = 2 ∧ dys.length = 2
             ∧ hs.length = 2 ∧ mins.length = 2 ∧ secs.length = 2
             ∧ 1 ≤ mo ∧ mo ≤ 12 ∧ 1 ≤ dy ∧ dy ≤ daysInMonth y mo
             ∧ h ≤ 23 ∧ mi ≤ 59 ∧ s2 ≤ 59
          then some ⟨y, mo, dy, h, mi, s2⟩ else none
        | _, _, _, _, _, _ => none)
     | _, _ => none)
  | _ => none

/-- Models `str.replace("+00:00", "")` at character-list level. -/
def stripUtcOffset : List Char → List Char
  | [] => []
  | '+' :: '0' :: '0' :: ':' :: '0' :: '0' :: rest => stripUtcOffset rest
  | c :: rest => c :: stripUtcOffset rest

/-- Embeds `add_seconds_to_timestamp` (lines 250-254):
`(start + timedelta(seconds)).isoformat() + "Z"` with any `"+00:00"`
removed; `none` models the `ValueError` of an unparsable start timestamp. -/
def add_seconds_to_timestamp (start_timestamp : String) (seconds : Int) : Option String :=
  (fromisoformat start_timestamp).map (fun dtm =>
    String.mk (stripUtcOffset (isoformat (addSeconds dtm seconds) ++ "Z").data))

/- ### Fixed-point formatting

A numeric JSON sample is modelled as the exact decimal `mant / 10 ^ exp`
(JSON numbers in the stream payloads are decimal literals).  `formatFixed`
models Python `f"{x:.Nf}"` formatting of such a value: round to `prec`
fractional digits (ties to even), then render with exactly `prec` digits
after the decimal point. -/

structure Dec where
  mant : Int
  exp : Nat
deriving DecidableEq

/-- Nearest integer to `a / b` for `b > 0`, ties to even. -/
def divRoundHalfEven (a b : Int) : Int :=
  let q := Int.ediv a b
  let r := a - q * b
  if 2 * r < b then q
  else if b < 2 * r then q + 1
  else if Int.emod q 2 = 0 then q else q + 1

def formatFixed (prec : Nat) (x : Dec) : String :=
  let n : Int := divRoundHalfEven (x.mant * (10 : Int) ^ prec) ((10 : Int) ^ x.exp)
  let sgn : String := if n < 0 then "-" else ""
  let m : Nat := Int.natAbs n
  sgn ++ Nat.repr (m / 10 ^ prec) ++ "." ++ String.mk (padDigits prec (m % 10 ^ prec))

/- ### Stream selection state

Embeds the `self.streams` dictionary (lines 26-32); field order is the
insertion order of the Python dict, which fixes the iteration order of the
key-building loop in `get_data_stream`.  Flags are the integers 0/1 used by
the source. -/

structure Streams where
  latlng : Nat
  altitude : Nat
  heartrate : Nat
  cadence : Nat
  watts : Nat
  temp : Nat
deriving DecidableEq

/-- The initial `self.streams` dict of `__init__` (lines 26-32). -/
def initStreams : Streams :=
  { latlng := 1, altitude := 1, heartrate := 0, cadence := 0, watts := 0, temp := 0 }

/- ### Activity detail

Embeds the JSON object returned by the activity-detail endpoint, with the
fields the source reads.  `Option` models presence of a key; the
presence-as-flag keys carry their numeric value. -/

structure ActivityDetail where
  name : String
  id : Nat
  start_date : String
  type : String
  device_watts : Option Bool
  has_heartrate : Option Bool
  average_cadence : Option Dec
  average_temp : Option Int
deriving DecidableEq

/-- Embeds `detect_activity_streams` (lines 232-248).  `activity.get('device_watts', False)`
is the `Option.getD` default; `activity['has_heartrate']` is a bare key lookup, so a
missing key raises `KeyError`, modelled as `none`; cadence and temp are
presence checks (`'average_cadence' in activity`). -/
def detect_activity_streams (activity : ActivityDetail) (st : Streams) : Option Streams :=
  let watts : Nat := if activity.device_watts.getD false then 1 else 0
  match activity.has_heartrate with
  | none => none
  | some hb =>
    some { st with
      watts := watts
      heartrate := if hb = true then 1 else 0
      cadence := if activity.average_cadence.isSome then 1 else 0
      temp := if activity.average_temp.isSome then 1 else 0 }

/- ### Stream data

Embeds the JSON payload of the streams endpoint: per channel an
`original_size` count and a `data` array.  `original_size` and the length of
`data` are independent fields of the payload, exactly as in the JSON. -/

structure Stream (α : Type) where
  original_size : Nat
  data : List α
deriving DecidableEq

structure DataStreams where
  time : Stream Int
  latlng : Stream (Dec × Dec)
  altitude : Stream Dec
  heartrate : Stream Int
  cadence : Stream Int
  watts : Stream Int
  temp : Stream Int
deriving DecidableEq

/- ### Track points

One loop iteration of `write_to_gpx` (lines 289-321) appends to `trkpts` the
opening chunk of one `<trkpt>` element, one extension chunk per enabled
channel (in source order: temp, watts, heartrate, cadence), and the closing
chunk.  A `Trkpt` value records the data of one such waypoint element;
rendering to the exact strings of the source is done by `renderTrkpt`. -/

inductive ExtTag where
  | atemp
  | watts
  | hr
  | cad
deriving DecidableEq

structure ExtElem where
  tag : ExtTag
  value : String
deriving DecidableEq

structure Trkpt where
  lat : String
  lon : String
  ele : String
  time : String
  exts : List ExtElem
deriving DecidableEq

/-- One extension chunk: emitted only when the channel flag is 1
(`if self.streams['temp'] == 1:` etc., lines 300-316); the value is the raw
JSON number `data_streams[ch]['data'][i]`, out-of-range access raising
`IndexError` (modelled as `none`). -/
def extPart (flag : Nat) (tg : ExtTag) (l : List Int) (i : Nat) : Option (List ExtElem) :=
  if flag == 1 then (l[i]?).map (fun v => [⟨tg, Int.repr v⟩]) else some []

def buildExts (st : Streams) (ds : DataStreams) (i : Nat) : Option (List ExtElem) := do
  let e1 ← extPart st.temp ExtTag.atemp ds.temp.data i
  let e2 ← extPart st.watts ExtTag.watts ds.watts.data i
  let e3 ← extPart st.heartrate ExtTag.hr ds.heartrate.data i
  let e4 ← extPart st.cadence ExtTag.cad ds.cadence.data i
  pure (e1 ++ e2 ++ e3 ++ e4)

/-- One iteration of the rendering loop (lines 289-321): timestamp from the
time channel, coordinates formatted `:.7f`, elevation `:.1f`, extension
chunks per enabled channel; any raised `KeyError`/`IndexError`/`ValueError`
is modelled as `none`. -/
def buildTrkpt (st : Streams) (activity : ActivityDetail) (ds : DataStreams) (i : Nat) :
    Option Trkpt := do
  let t ← ds.time.data[i]?
  let time ← add_seconds_to_timestamp activity.start_date t
  let ll ← ds.latlng.data[i]?
  let alt ← ds.altitude.data[i]?
  let exts ← buildExts st ds i
  pure { lat := formatFixed 7 ll.1, lon := formatFixed 7 ll.2,
         ele := formatFixed 1 alt, time := time, exts := exts }

/-- The rendering loop `for i in range(data_streams['time']['original_size'])`,
accumulating waypoints in order; the first raised exception aborts the whole
build (modelled as `none`). -/
def buildRange (f : Nat → Option Trkpt) : Nat → Option (List Trkpt)
  | 0 => some []
  | n + 1 => do
    let l ← buildRange f n
    let p ← f n
    pure (l ++ [p])

def buildTrkpts (st : Streams) (activity : ActivityDetail) (ds : DataStreams) :
    Option (List Trkpt) :=
  buildRange (buildTrkpt st activity ds) ds.time.original_size

/- ### GPX serialization (lines 260-274, 291-321) -/

/-- The `gpx_content_start` header template (lines 260-268). -/
def gpx_content_start (activity : ActivityDetail) : String :=
  "<?xml version=\"1.0\" encoding=\"UTF-8\"?>\n<gpx xmlns:xsi=\"http://www.w3.org/2001/XMLSchema-instance\" xsi:schemaLocation=\"http://www.topografix.com/GPX/1/1 http://www.topografix.com/GPX/1/1/gpx.xsd http://www.garmin.com/xmlschemas/GpxExtensions/v3 http://www.garmin.com/xmlschemas/GpxExtensionsv3.xsd http://www.garmin.com/xmlschemas/TrackPointExtension/v1 http://www.garmin.com/xmlschemas/TrackPointExtensionv1.xsd\" creator=\"StravaGPX\" version=\"1.1\" xmlns=\"http://www.topografix.com/GPX/1/1\" xmlns:gpxtpx=\"http://www.garmin.com/xmlschemas/TrackPointExtension/v1\" xmlns:gpxx=\"http://www.garmin.com/xmlschemas/GpxExtensions/v3\">\n <metadata>\n  <time>"
    ++ activity.start_date ++ "</time>\n </metadata>\n <trk>\n  <name>" ++ activity.name
    ++ "</name>\n  <type>" ++ activity.type ++ "</type>\n  <trkseg>"

/-- The `gpx_content_end` footer (lines 270-274). -/
def gpx_content_end : String :=
  "\n  </trkseg>\n </trk>\n</gpx>\n"

def renderExt (e : ExtElem) : String :=
  match e.tag with
  | ExtTag.atemp => "      <gpxtpx:atemp>" ++ e.value ++ "</gpxtpx:atemp>\n"
  | ExtTag.watts => "      <gpxtpx:watts>" ++ e.value ++ "</gpxtpx:watts>\n"
  | ExtTag.hr => "      <gpxtpx:hr>" ++ e.value ++ "</gpxtpx:hr>\n"
  | ExtTag.cad => "      <gpxtpx:cad>" ++ e.value ++ "</gpxtpx:cad>\n"

/-- The chunks appended to `trkpts` for one waypoint, joined (lines 291-321). -/
def renderTrkpt (p : Trkpt) : String :=
  "\n   <trkpt lat=\"" ++ p.lat ++ "\" lon=\"" ++ p.lon ++ "\">\n    <ele>" ++ p.ele
    ++ "</ele>\n    <time>" ++ p.time
    ++ "</time>\n    <extensions>\n     <gpxtpx:TrackPointExtension>\n"
    ++ String.join (p.exts.map renderExt)
    ++ "     </gpxtpx:TrackPointExtension>\n    </extensions>\n   </trkpt>"

/- ### The export operation -/

/-- Observable outcome of `write_to_gpx` (lines 256-329).  `headerPath` is the
path of the first (header) write, `appendPath` the path of the second
(body/footer) write when it happens, `fileContents` the resulting contents of
the output file, `message` the line printed at the end. -/
structure ExportResult where
  headerPath : String
  appendPath : Option String
  fileContents : String
  trkpts : List Trkpt
  footerWritten : Bool
  success : Bool
  message : String
deriving DecidableEq

/-- Embeds `write_to_gpx` (lines 256-329) given the fetched activity detail,
the `self.streams` state at the time of the call, and the fetched stream
payload.  The header is written first; then `detect_activity_streams` runs (a
`KeyError` there is caught by the broad `except`, message text elided to a
fixed marker); then the `latlng` vs `time` size check; then the waypoint loop
and the single append of body plus footer. -/
def write_to_gpx (activity : ActivityDetail) (stIn : Streams) (ds : DataStreams)
    (output : String) : ExportResult :=
  let headerPath := output ++ ".gpx"
  let header := gpx_content_start activity
  match detect_activity_streams activity stIn with
  | none =>
    { headerPath := headerPath, appendPath := none, fileContents := header,
      trkpts := [], footerWritten := false, success := false,
      message := "Error writing GPX file: KeyError has_heartrate" }
  | some st =>
    if ds.latlng.original_size ≠ ds.time.original_size then
      { headerPath := headerPath, appendPath := none, fileContents := header,
        trkpts := [], footerWritten := false, success := false,
        message := "Error: latlng does not equal Time" }
    else
      match buildTrkpts st activity ds with
      | none =>
        { headerPath := headerPath, appendPath := none, fileContents := header,
          trkpts := [], footerWritten := false, success := false,
          message := "Error writing GPX file: exception during track point construction" }
      | some pts =>
        { headerPath := headerPath, appendPath := some (output ++ ".gpx"),
          fileContents := header ++ String.join (pts.map renderTrkpt) ++ gpx_content_end,
          trkpts := pts, footerWritten := true, success := true,
          message := "GPX file " ++ (output ++ ".gpx") ++ " saved successfully." }

/-- The default of the `output` parameter is `"build"` (line 257). -/
def write_to_gpx_default (activity : ActivityDetail) (stIn : Streams) (ds : DataStreams) :
    ExportResult :=
  write_to_gpx activity stIn ds "build"

/- ### Token refresh (lines 54-81) -/

/-- The single exception class `Strava2GPXError` of the source (line 13);
the spec's `AuthError` is this class carrying the refresh-failure message. -/
inductive S2GErr where
  | strava2gpxError (msg : String)
deriving DecidableEq

structure ClientState where
  access_token : Option String
deriving DecidableEq

/-- Body of the token-refresh HTTP response: `data.get("access_token")`. -/
structure TokenResponse where
  access_token : Option String
deriving DecidableEq

/-- Embeds `refresh_access_token` (lines 54-81) as a function of the HTTP
outcome: transport failure (`aiohttp.ClientError`, modelled as `Except.error`)
raises `Strava2GPXError("Failed to refresh access token")`; a missing or
falsy `access_token` field raises
`Strava2GPXError("Strava response missing access_token")` (`if not token:`
treats the empty string like an absent key); otherwise the token is stored in
`self.access_token` and returned. -/
def refresh_access_token (st : ClientState) (resp : Except Unit TokenResponse) :
    Except S2GErr (ClientState × String) :=
  match resp with
  | Except.error _ =>
    Except.error (S2GErr.strava2gpxError "Failed to refresh access token")
  | Except.ok data =>
    match data.access_token with
    | none => Except.error (S2GErr.strava2gpxError "Strava response missing access_token")
    | some tok =>
      if tok = "" then
        Except.error (S2GErr.strava2gpxError "Strava response missing access_token")
      else
        Except.ok ({ st with access_token := some tok }, tok)

/- ### Stream fetch request construction (lines 124-148) -/

inductive ApiEvent where
  | refreshToken
  | get (url : String)
deriving DecidableEq

def streamChannelPairs (st : Streams) : List (String × Nat) :=
  [("latlng", st.latlng), ("altitude", st.altitude), ("heartrate", st.heartrate),
   ("cadence", st.cadence), ("watts", st.watts), ("temp", st.temp)]

/-- The `query_params` string built by the loop over `self.streams.items()`
(lines 128-136): starts at `"time"`, appends `,key` for every flag equal 1,
in dict insertion order. -/
def stream_query_params (st : Streams) : String :=
  ((streamChannelPairs st).filter (fun kv => kv.2 == 1)).foldl
    (fun acc kv => acc ++ "," ++ kv.1) "time"

/-- The channel-key list named by the spec: `time` plus every enabled channel. -/
def streamKeys (st : Streams) : List String :=
  "time" :: ((streamChannelPairs st).filter (fun kv => kv.2 == 1)).map Prod.fst

/-- Comma-joining of a nonempty key list; `stream_query_params` equals this
applied to `streamKeys` by construction of the loop. -/
def joinCommas : List String → String
  | [] => ""
  | x :: xs => xs.foldl (fun acc k => acc ++ "," ++ k) x

/-- The URL requested by `get_data_stream` (line 137). -/
def streamUrl (st : Streams) (activity_id : Nat) : String :=
  "https://www.strava.com/api/v3/activities/" ++ Nat.repr activity_id
    ++ "/streams?keys=" ++ stream_query_params st ++ "&key_by_type=true"

/-- Embeds the request issued by `get_data_stream` (lines 124-148) as the
trace of API events the operation performs before its response arrives.  The
body contains no call to `refresh_access_token`: the only event is the GET
itself, whatever `self.access_token` holds. -/
def get_data_stream_events (_accessToken : Option String) (st : Streams)
    (activity_id : Nat) : List ApiEvent :=
  [ApiEvent.get (streamUrl st activity_id)]

/-- Python truthiness of `self.access_token` (`if not self.access_token:`). -/
def tokenFalsy : Option String → Bool
  | none => true
  | some s => s == ""

/-- Embeds the request trace of `get_strava_activities` (lines 98-122): this
operation, unlike `get_data_stream`, lazily refreshes the token first when
none is held (lines 100-101). -/
def get_strava_activities_events (accessToken : Option String) : List ApiEvent :=
  (if tokenFalsy accessToken then [ApiEvent.refreshToken] else [])
    ++ [ApiEvent.get "https://www.strava.com/api/v3/athlete/activities"]

/- ### Activity lister (lines 41-52) -/

structure ActivityItem where
  name : String
  id : Nat
  start_date : String
  type : String
deriving DecidableEq

structure ActivitySummary where
  name : String
  id : Nat
  start_date : String
  type : String
deriving DecidableEq

/-- The projection `[activity['name'], activity['id'], activity['start_date'],
activity['type']]` of line 43/49. -/
def summarize (a : ActivityItem) : ActivitySummary :=
  ⟨a.name, a.id, a.start_date, a.type⟩

/-- The `while len(activities) != 0` loop of `get_activities_list`
(lines 45-50), given the page contents `f page` returned by the endpoint.
Each recorded request is the `(page, per_page)` pair of a
`get_strava_activities` call; `per_page` is always the default 200.  `fuel`
bounds the unbounded source loop; `none` means it was exhausted. -/
def get_activities_list_loop (f : Nat → List ActivityItem) :
    Nat → Nat → List ActivityItem → List ActivitySummary → List (Nat × Nat) →
    Option (List ActivitySummary × List (Nat × Nat))
  | 0, _, _, _, _ => none
  | fuel + 1, page, activities, master, reqs =>
    if activities.length = 0 then some (master, reqs)
    else
      let page2 := page + 1
      let acts := f page2
      get_activities_list_loop f fuel page2 acts (master ++ acts.map summarize)
        (reqs ++ [(page2, 200)])

/-- Embeds `get_activities_list` (lines 41-52): fetch page 1, project it,
then loop until an empty page.  Returns the accumulated summaries and the
list of issued page requests. -/
def get_activities_list (f : Nat → List ActivityItem) (fuel : Nat) :
    Option (List ActivitySummary × List (Nat × Nat)) :=
  let activities := f 1
  get_activities_list_loop f fuel 1 activities (activities.map summarize) [(1, 200)]

/-- The flag of the channel rendered by a given extension element, read off
`self.streams`. -/
def extFlag (st : Streams) : ExtTag → Nat
  | ExtTag.atemp => st.temp
  | ExtTag.watts => st.watts
  | ExtTag.hr => st.heartrate
  | ExtTag.cad => st.cadence

/-- A string consisting of some prefix, a dot, and exactly `k` digit
characters after it: what "formatted to exactly `k` decimal places" means. -/
def hasDecimals (s : String) (k : Nat) : Prop :=
  ∃ a frac, s.data = a ++ '.' :: frac ∧ frac.length = k ∧ ∀ c ∈ frac, c.isDigit = true

/- ### Concrete fixtures for witnesses and counterexamples -/

/-- An activity with no optional sensors (heart-rate flag present, false). -/
def actPlain : ActivityDetail :=
  { name := "Morning Run", id := 7, start_date := "2021-01-01T00:00:00", type := "Run",
    device_watts := none, has_heartrate := some false, average_cadence := none,
    average_temp := none }

/-- An activity with every optional sensor present. -/
def actFull : ActivityDetail :=
  { name := "Ride", id := 8, start_date := "2021-06-01T10:00:00", type := "Ride",
    device_watts := some true, has_heartrate := some true,
    average_cadence := some ⟨905, 1⟩, average_temp := some 21 }

/-- An activity whose detail lacks the `has_heartrate` key. -/
def actNoHr : ActivityDetail :=
  { name := "Swim", id := 9, start_date := "2021-06-02T10:00:00", type := "Swim",
    device_watts := none, has_heartrate := none, average_cadence := none,
    average_temp := none }

/-- An activity with exactly heart rate and cadence available. -/
def actHrCad : ActivityDetail :=
  { name := "Run", id := 10, start_date := "2021-03-05T08:30:00", type := "Run",
    device_watts := none, has_heartrate := some true, average_cadence := some ⟨80, 0⟩,
    average_temp := none }

/-- Streams whose altitude channel is longer than the time channel
(`original_size` 3 vs 1) while latlng agrees with time. -/
def dsTruncAlt : DataStreams :=
  { time := ⟨1, [65]⟩,
    latlng := ⟨1, [(⟨15, 1⟩, ⟨25, 1⟩)]⟩,
    altitude := ⟨3, [⟨105, 1⟩, ⟨106, 1⟩, ⟨107, 1⟩]⟩,
    heartrate := ⟨0, []⟩, cadence := ⟨0, []⟩, watts := ⟨0, []⟩, temp := ⟨0, []⟩ }

/-- Streams with `latlng.original_size = 100` and `time.original_size = 101`. -/
def dsMismatch : DataStreams :=
  { time := ⟨101, []⟩, latlng := ⟨100, []⟩, altitude := ⟨0, []⟩,
    heartrate := ⟨0, []⟩, cadence := ⟨0, []⟩, watts := ⟨0, []⟩, temp := ⟨0, []⟩ }

/-- A consistent two-sample stream payload with no optional channels. -/
def dsOk : DataStreams :=
  { time := ⟨2, [0, 65]⟩,
    latlng := ⟨2, [(⟨15, 1⟩, ⟨25, 1⟩), (⟨16, 1⟩, ⟨26, 1⟩)]⟩,
    altitude := ⟨2, [⟨105, 1⟩, ⟨106, 1⟩]⟩,
    heartrate := ⟨0, []⟩, cadence := ⟨0, []⟩, watts := ⟨0, []⟩, temp := ⟨0, []⟩ }

/-- A one-sample stream payload with heart rate and cadence data. -/
def dsHrCad : DataStreams :=
  { time := ⟨1, [30]⟩,
    latlng := ⟨1, [(⟨15, 1⟩, ⟨25, 1⟩)]⟩,
    altitude := ⟨1, [⟨105, 1⟩]⟩,
    heartrate := ⟨1, [142]⟩, cadence := ⟨1, [88]⟩, watts := ⟨0, []⟩, temp := ⟨0, []⟩ }

/-- The first waypoint emitted by the heart-rate/cadence export fixture. -/
def p0 : Trkpt :=
  ((write_to_gpx actHrCad initStreams dsHrCad "out").trkpts).headD
    (Trkpt.mk "" "" "" "" [])

def mockItem : ActivityItem :=
  ⟨"Morning Run", 1234567890, "2021-01-01T00:00:00Z", "Run"⟩

/-- The mocked list endpoint of the pagination example: 200 items on page 1,
50 on page 2, none afterwards. -/
def mockPages : Nat → List ActivityItem := fun p =>
  if p = 1 then List.replicate 200 mockItem
  else if p = 2 then List.replicate 50 mockItem
  else []

/- ### Helper lemmas -/

theorem padDigits_length (p : Nat) : ∀ x : Nat, (padDigits p x).length = p := by
  induction p with
  | zero => intro x; rfl
  | succ p ih => intro x; simp [padDigits, ih]

theorem digitChar_isDigit : ∀ r : Nat, r < 10 → (Nat.digitChar r).isDigit = true := by
  decide

theorem padDigits_digits (p : Nat) : ∀ (x : Nat), ∀ c ∈ padDigits p x, c.isDigit = true := by
  induction p with
  | zero => intro x c hc; simp [padDigits] at hc
  | succ p ih =>
    intro x c hc
    simp only [padDigits, List.mem_append, List.mem_singleton] at hc
    rcases hc with h | h
    · exact ih _ _ h
    · subst h; exact digitChar_isDigit _ (Nat.mod_lt _ (by norm_num))

theorem formatFixed_hasDecimals (prec : Nat) (x : Dec) :
    hasDecimals (formatFixed prec x) prec := by
  refine ⟨((if divRoundHalfEven (x.mant * (10 : Int) ^ prec) ((10 : Int) ^ x.exp) < 0
        then "-" else "") : String).data
      ++ (Nat.repr ((Int.natAbs (divRoundHalfEven (x.mant * (10 : Int) ^ prec)
        ((10 : Int) ^ x.exp))) / 10 ^ prec)).data,
    padDigits prec ((Int.natAbs (divRoundHalfEven (x.mant * (10 : Int) ^ prec)
        ((10 : Int) ^ x.exp))) % 10 ^ prec),
    ?_, padDigits_length _ _, padDigits_digits _ _⟩
  have hd : ∀ (a b : String), (a ++ b).data = a.data ++ b.data := fun a b => rfl
  show (((if divRoundHalfEven (x.mant * (10 : Int) ^ prec) ((10 : Int) ^ x.exp) < 0
        then "-" else "")
      ++ Nat.repr ((Int.natAbs (divRoundHalfEven (x.mant * (10 : Int) ^ prec)
        ((10 : Int) ^ x.exp))) / 10 ^ prec) ++ "."
      ++ String.mk (padDigits prec ((Int.natAbs (divRoundHalfEven (x.mant * (10 : Int) ^ prec)
        ((10 : Int) ^ x.exp))) % 10 ^ prec))).data) = _
  rw [hd, hd, hd]
  have hdot : ("." : String).data = ['.'] := rfl
  rw [hdot]
  simp [List.append_assoc]

theorem buildRange_eq (f : Nat → Option Trkpt) (n : Nat)
    (h : ∀ i, i < n → (f i).isSome) :
    ∃ l, buildRange f n = some l ∧ l.length = n ∧ ∀ i, i < n → l[i]? = f i := by
  induction n with
  | zero => exact ⟨[], rfl, rfl, fun i hi => absurd hi (by omega)⟩
  | succ n ih =>
    obtain ⟨l, hl, hlen, hget⟩ := ih (fun i hi => h i (by omega))
    obtain ⟨p, hp⟩ := Option.isSome_iff_exists.mp (h n (by omega))
    refine ⟨l ++ [p], ?_, by simp [hlen], ?_⟩
    · simp [buildRange, hl, hp]
    · intro i hi
      rcases Nat.lt_succ_iff_lt_or_eq.mp hi with hi' | hi'

      · rw [List.getElem?_append, if_pos (by omega)]
        exact hget i hi'
      · subst hi'
        rw [List.getElem?_append, if_neg (by omega), hlen, Nat.sub_self]
        exact hp.symm

theorem extPart_isSome (flag : Nat) (tg : ExtTag) (l : List Int) (i : Nat)
    (h : flag = 1 → i < l.length) : (extPart flag tg l i).isSome := by
  cases hf : (flag == 1) with
  | true =>
    have hf2 : flag = 1 := by simpa using hf
    simp [extPart, hf, List.getElem?_eq_getElem (h hf2)]
  | false => simp [extPart, hf]

theorem extPart_tags (flag : Nat) (tg : ExtTag) (l : List Int) (i : Nat)
    (e : List ExtElem) (h : extPart flag tg l i = some e) :
    e.map ExtElem.tag = if flag == 1 then [tg] else [] := by
  cases hf : (flag == 1) <;> simp only [extPart, hf, if_true, if_false] at h ⊢
  · simp at h; simp [← h]
  · rcases hv : l[i]? with _ | v
    · rw [hv] at h; simp at h
    · rw [hv] at h; simp at h; simp [← h]

theorem buildExts_isSome (st : Streams) (ds : DataStreams) (i : Nat)
    (h1 : st.temp = 1 → i < ds.temp.data.length)
    (h2 : st.watts = 1 → i < ds.watts.data.length)
    (h3 : st.heartrate = 1 → i < ds.heartrate.data.length)
    (h4 : st.cadence = 1 → i < ds.cadence.data.length) :
    (buildExts st ds i).isSome := by
  obtain ⟨e1, he1⟩ := Option.isSome_iff_exists.mp (extPart_isSome st.temp ExtTag.atemp _ i h1)
  obtain ⟨e2, he2⟩ := Option.isSome_iff_exists.mp (extPart_isSome st.watts ExtTag.watts _ i h2)
  obtain ⟨e3, he3⟩ := Option.isSome_iff_exists.mp (extPart_isSome st.heartrate ExtTag.hr _ i h3)
  obtain ⟨e4, he4⟩ := Option.isSome_iff_exists.mp (extPart_isSome st.cadence ExtTag.cad _ i h4)
  simp [buildExts, he1, he2, he3, he4]

theorem buildExts_tags (st : Streams) (ds : DataStreams) (i : Nat) (e : List ExtElem)
    (h : buildExts st ds i = some e) :
    e.map ExtElem.tag =
      [ExtTag.atemp, ExtTag.watts, ExtTag.hr, ExtTag.cad].filter
        (fun tg => extFlag st tg == 1) := by
  rcases he1 : extPart st.temp ExtTag.atemp ds.temp.data i with _ | e1
  · simp [buildExts, he1] at h
  rcases he2 : extPart st.watts ExtTag.watts ds.watts.data i with _ | e2
  · simp [buildExts, he1, he2] at h
  rcases he3 : extPart st.heartrate ExtTag.hr ds.heartrate.data i with _ | e3
  · simp [buildExts, he1, he2, he3] at h
  rcases he4 : extPart st.cadence ExtTag.cad ds.cadence.data i with _ | e4
  · simp [buildExts, he1, he2, he3, he4] at h
  have he : e = e1 ++ (e2 ++ (e3 ++ e4)) := by
    simp [buildExts, he1, he2, he3, he4] at h
    exact h.symm
  subst he
  have t1 := extPart_tags _ _ _ _ _ he1
  have t2 := extPart_tags _ _ _ _ _ he2
  have t3 := extPart_tags _ _ _ _ _ he3
  have t4 := extPart_tags _ _ _ _ _ he4
  simp only [List.map_append, t1, t2, t3, t4]
  cases f1 : (st.temp == 1) <;> cases f2 : (st.watts == 1) <;>
    cases f3 : (st.heartrate == 1) <;> cases f4 : (st.cadence == 1) <;>
    simp [List.filter, extFlag, f1, f2, f3, f4]

theorem buildTrkpt_some (st : Streams) (activity : ActivityDetail) (ds : DataStreams)
    (i : Nat) (dt : DateTime) (t : Int) (ll : Dec × Dec) (alt : Dec) (e : List ExtElem)
    (hpt : fromisoformat activity.start_date = some dt)
    (ht : ds.time.data[i]? = some t)
    (hll : ds.latlng.data[i]? = some ll)
    (halt : ds.altitude.data[i]? = some alt)
    (he : buildExts st ds i = some e) :
    ∃ p, buildTrkpt st activity ds i = some p ∧
      p.lat = formatFixed 7 ll.1 ∧ p.lon = formatFixed 7 ll.2 ∧
      p.ele = formatFixed 1 alt ∧
      add_seconds_to_timestamp activity.start_date t = some p.time ∧
      p.exts = e := by
  have hadd : add_seconds_to_timestamp activity.start_date t =
      some (String.mk (stripUtcOffset (isoformat (addSeconds dt t) ++ "Z").data)) := by
    simp [add_seconds_to_timestamp, hpt]
  refine ⟨Trkpt.mk (formatFixed 7 ll.1) (formatFixed 7 ll.2) (formatFixed 1 alt)
      (String.mk (stripUtcOffset (isoformat (addSeconds dt t) ++ "Z").data)) e,
      ?_, rfl, rfl, rfl, ?_, rfl⟩
  · simp [buildTrkpt, ht, hadd, hll, halt, he]
  · exact hadd

theorem buildTrkpt_isSome (st : Streams) (activity : ActivityDetail) (ds : DataStreams)
    (i : Nat) (dt : DateTime)
    (hpt : fromisoformat activity.start_date = some dt)
    (ht : i < ds.time.data.length)
    (hll : i < ds.latlng.data.length)
    (halt : i < ds.altitude.data.length)
    (h1 : st.temp = 1 → i < ds.temp.data.length)
    (h2 : st.watts = 1 → i < ds.watts.data.length)
    (h3 : st.heartrate = 1 → i < ds.heartrate.data.length)
    (h4 : st.cadence = 1 → i < ds.cadence.data.length) :
    (buildTrkpt st activity ds i).isSome := by
  obtain ⟨e, he⟩ := Option.isSome_iff_exists.mp (buildExts_isSome st ds i h1 h2 h3 h4)
  obtain ⟨p, hp, -⟩ := buildTrkpt_some st activity ds i dt (ds.time.data[i])
    (ds.latlng.data[i]) (ds.altitude.data[i]) e hpt
    (List.getElem?_eq_getElem ht) (List.getElem?_eq_getElem hll)
    (List.getElem?_eq_getElem halt) he
  simp [hp]

/-- Success path of `write_to_gpx`: whenever the `latlng` size check passes,
the stream selection succeeds, the start timestamp parses, and every channel
the loop actually reads has enough data, the export writes all
`time.original_size` waypoints and the footer and reports success.  No other
channel's `original_size` is consulted. -/
theorem write_to_gpx_success (activity : ActivityDetail) (stIn : Streams)
    (ds : DataStreams) (output : String) (st2 : Streams) (dt : DateTime)
    (hdet : detect_activity_streams activity stIn = some st2)
    (hpt : fromisoformat activity.start_date = some dt)
    (hsz : ds.latlng.original_size = ds.time.original_size)
    (hT : ds.time.original_size ≤ ds.time.data.length)
    (hL : ds.time.original_size ≤ ds.latlng.data.length)
    (hA : ds.time.original_size ≤ ds.altitude.data.length)
    (h1 : st2.temp = 1 → ds.time.original_size ≤ ds.temp.data.length)
    (h2 : st2.watts = 1 → ds.time.original_size ≤ ds.watts.data.length)
    (h3 : st2.heartrate = 1 → ds.time.original_size ≤ ds.heartrate.data.length)
    (h4 : st2.cadence = 1 → ds.time.original_size ≤ ds.cadence.data.length) :
    ∃ pts, buildTrkpts st2 activity ds = some pts ∧
      pts.length = ds.time.original_size ∧
      (∀ i, i < ds.time.original_size → pts[i]? = buildTrkpt st2 activity ds i) ∧
      write_to_gpx activity stIn ds output =
        { headerPath := output ++ ".gpx", appendPath := some (output ++ ".gpx"),
          fileContents := gpx_content_start activity
            ++ String.join (pts.map renderTrkpt) ++ gpx_content_end,
          trkpts := pts, footerWritten := true, success := true,
          message := "GPX file " ++ (output ++ ".gpx") ++ " saved successfully." } := by
  have hall : ∀ i, i < ds.time.original_size → (buildTrkpt st2 activity ds i).isSome := by
    intro i hi
    exact buildTrkpt_isSome st2 activity ds i dt hpt (by omega) (by omega) (by omega)
      (fun hf => by have := h1 hf; omega) (fun hf => by have := h2 hf; omega)
      (fun hf => by have := h3 hf; omega) (fun hf => by have := h4 hf; omega)
  obtain ⟨pts, hpts, hlen, hget⟩ := buildRange_eq (buildTrkpt st2 activity ds)
    ds.time.original_size hall
  refine ⟨pts, hpts, hlen, hget, ?_⟩
  simp [write_to_gpx, hdet, hsz, buildTrkpts, hpts]

/-- Loop invariant of the pagination loop: entered at `page` with the page
contents `f page` in hand, if the next `m` pages starting at `page` are the
nonempty ones (the `m`-th being the first empty one), the loop appends the
projections of pages `page+1 .. page+m` and requests each of them once. -/
theorem get_activities_list_loop_spec (f : Nat → List ActivityItem) :
    ∀ (m fuel page : Nat) (master : List ActivitySummary) (reqs : List (Nat × Nat)),
      m < fuel →
      (∀ j, j < m → f (page + j) ≠ []) →
      f (page + m) = [] →
      get_activities_list_loop f fuel page (f page) master reqs =
        some (master ++ ((List.range' (page + 1) m).map
                (fun p => (f p).map summarize)).flatten,
              reqs ++ (List.range' (page + 1) m).map (fun p => (p, 200))) := by
  intro m
  induction m with
  | zero =>
    intro fuel page master reqs hfuel _ hempty
    match fuel, hfuel with
    | fuel + 1, _ =>
      simp at hempty
      simp [get_activities_list_loop, hempty]
  | succ m ih =>
    intro fuel page master reqs hfuel hne hempty
    match fuel, hfuel with
    | fuel + 1, hfuel =>
      have hpage : f page ≠ [] := by simpa using hne 0 (by omega)
      have hlen : (f page).length ≠ 0 := by
        simpa [List.length_eq_zero] using hpage
      have step := ih fuel (page + 1) (master ++ (f (page + 1)).map summarize)
        (reqs ++ [(page + 1, 200)]) (by omega)
        (fun j hj => by
          have := hne (j + 1) (by omega)
          simpa [Nat.add_assoc, Nat.add_comm 1 j] using this)
        (by
          have : page + 1 + m = page + (m + 1) := by omega
          rw [this]; exact hempty)
      rw [get_activities_list_loop, if_neg hlen, step]
      have hr : List.range' (page + 1) (m + 1) = (page + 1) :: List.range' (page + 2) m :=
        List.range'_succ _ _ _
      rw [hr]
      simp [List.append_assoc]

theorem buildRange_mem (f : Nat → Option Trkpt) (n : Nat) (l : List Trkpt) (p : Trkpt)
    (h : buildRange f n = some l) (hp : p ∈ l) : ∃ i, i < n ∧ f i = some p := by
  induction n generalizing l with
  | zero =>
    simp only [buildRange, Option.some.injEq] at h
    subst h
    simp at hp
  | succ n ih =>
    simp only [buildRange] at h
    rcases hbr : buildRange f n with _ | l2 <;> rw [hbr] at h
    · simp at h
    rcases hf : f n with _ | q <;> rw [hf] at h
    · simp at h
    simp at h
    have hl : l = l2 ++ [q] := h.symm
    subst hl
    rcases List.mem_append.mp hp with hmem | hmem
    · obtain ⟨i, hi, hfi⟩ := ih l2 hbr hmem
      exact ⟨i, by omega, hfi⟩
    · have : p = q := by simpa using hmem
      subst this
      exact ⟨n, by omega, hf⟩

theorem buildTrkpt_exts (st : Streams) (activity : ActivityDetail) (ds : DataStreams)
    (i : Nat) (p : Trkpt) (h : buildTrkpt st activity ds i = some p) :
    buildExts st ds i = some p.exts := by
  rcases ht : ds.time.data[i]? with _ | t
  · simp [buildTrkpt, ht] at h
  rcases ha : add_seconds_to_timestamp activity.start_date t with _ | ts
  · simp [buildTrkpt, ht, ha] at h
  rcases hll : ds.latlng.data[i]? with _ | ll
  · simp [buildTrkpt, ht, ha, hll] at h
  rcases halt : ds.altitude.data[i]? with _ | alt
  · simp [buildTrkpt, ht, ha, hll, halt] at h
  rcases he : buildExts st ds i with _ | e
  · simp [buildTrkpt, ht, ha, hll, halt, he] at h
  · have h2 : p = Trkpt.mk (formatFixed 7 ll.1) (formatFixed 7 ll.2) (formatFixed 1 alt) ts e := by
      have h3 := h
      simp [buildTrkpt, ht, ha, hll, halt, he] at h3
      exact h3.symm
    simp [h2]

/- ### Claim theorems -/

/-- C2: for every export input where `latlng.original_size` differs from
`time.original_size`, the export reports failure, writes zero waypoint
elements and no footer, and leaves the output file containing only the
already-written header. -/
theorem c2_mismatch_aborts_with_header_only (activity : ActivityDetail) (stIn : Streams)
    (ds : DataStreams) (output : String)
    (h : ds.latlng.original_size ≠ ds.time.original_size) :
    (write_to_gpx activity stIn ds output).success = false ∧
    (write_to_gpx activity stIn ds output).trkpts = [] ∧
    (write_to_gpx activity stIn ds output).footerWritten = false ∧
    (write_to_gpx activity stIn ds output).appendPath = none ∧
    (write_to_gpx activity stIn ds output).fileContents = gpx_content_start activity := by
  cases hd : detect_activity_streams activity stIn with
  | none => simp [write_to_gpx, hd]
  | some st2 => simp [write_to_gpx, hd, h]

/-- C2 witness: with sizes 100 vs 101 the export fails, emits zero waypoints,
no footer, and the file holds exactly the header. -/
theorem c2_witness :
    dsMismatch.latlng.original_size ≠ dsMismatch.time.original_size ∧
    (write_to_gpx actPlain initStreams dsMismatch "build").success = false ∧
    (write_to_gpx actPlain initStreams dsMismatch "build").trkpts = [] ∧
    (write_to_gpx actPlain initStreams dsMismatch "build").footerWritten = false ∧
    (write_to_gpx actPlain initStreams dsMismatch "build").fileContents
      = gpx_content_start actPlain := by
  have h := c2_mismatch_aborts_with_header_only actPlain initStreams dsMismatch "build"
    (by decide)
  exact ⟨by decide, h.1, h.2.1, h.2.2.1, h.2.2.2.2⟩

/-- C6: for every activity detail carrying the `has_heartrate` key, the stream
selector enables watts from `device_watts` (default false when absent),
heart rate from `has_heartrate`, cadence and temperature from key presence,
and leaves the always-enabled `latlng`/`altitude` flags untouched (they are 1
from initialization on). -/
theorem c6_detect_streams (activity : ActivityDetail) (stIn : Streams) (hb : Bool)
    (h : activity.has_heartrate = some hb) :
    detect_activity_streams activity stIn =
      some { latlng := stIn.latlng, altitude := stIn.altitude,
             heartrate := if hb = true then 1 else 0,
             cadence := if activity.average_cadence.isSome then 1 else 0,
             watts := if activity.device_watts.getD false then 1 else 0,
             temp := if activity.average_temp.isSome then 1 else 0 } ∧
    initStreams.latlng = 1 ∧ initStreams.altitude = 1 := by
  refine ⟨?_, rfl, rfl⟩
  simp [detect_activity_streams, h]

/-- C6 witness: on an activity with every sensor present, the selector enables
all four optional channels and keeps latlng/altitude enabled. -/
theorem c6_witness :
    detect_activity_streams actFull initStreams = some ⟨1, 1, 1, 1, 1, 1⟩ ∧
    initStreams.latlng = 1 ∧ initStreams.altitude = 1 := by
  have h := c6_detect_streams actFull initStreams true rfl
  exact ⟨h.1.trans (by decide), h.2.1, h.2.2⟩

/-- C8: token refresh fails with the structured `Strava2GPXError`
("Failed to refresh access token") on HTTP-transport failure, fails with the
structured `Strava2GPXError` ("Strava response missing access_token") when the
response body lacks the access-token field, and on success stores the new
token (replacing the held one unconditionally) and returns it. -/
theorem c8_refresh_access_token (st : ClientState) :
    (∀ e : Unit, refresh_access_token st (Except.error e) =
       Except.error (S2GErr.strava2gpxError "Failed to refresh access token")) ∧
    (∀ data : TokenResponse, data.access_token = none →
       refresh_access_token st (Except.ok data) =
         Except.error (S2GErr.strava2gpxError "Strava response missing access_token")) ∧
    (∀ (data : TokenResponse) (tok : String), data.access_token = some tok → tok ≠ "" →
       refresh_access_token st (Except.ok data) =
         Except.ok ({ access_token := some tok }, tok)) := by
  obtain ⟨a⟩ := st
  refine ⟨fun e => rfl, fun data h => ?_, fun data tok h hne => ?_⟩
  · simp [refresh_access_token, h]
  · simp [refresh_access_token, h, hne]

/-- C8 witness: the three refresh outcomes at concrete inputs. -/
theorem c8_witness :
    refresh_access_token ⟨some "old"⟩ (Except.error ()) =
      Except.error (S2GErr.strava2gpxError "Failed to refresh access token") ∧
    refresh_access_token ⟨some "old"⟩ (Except.ok ⟨none⟩) =
      Except.error (S2GErr.strava2gpxError "Strava response missing access_token") ∧
    refresh_access_token ⟨some "old"⟩ (Except.ok ⟨some "abc"⟩) =
      Except.ok (⟨some "abc"⟩, "abc") := by
  have h := c8_refresh_access_token ⟨some "old"⟩
  exact ⟨h.1 (), h.2.1 ⟨none⟩ rfl, h.2.2 ⟨some "abc"⟩ "abc" rfl (by decide)⟩

/-- C9: the stream selector is total only when the detail carries
`has_heartrate`: a detail lacking `device_watts` is handled (watts disabled),
but a detail lacking `has_heartrate` makes the selector raise a key lookup
error instead of defaulting. -/
theorem c9_heartrate_key_required :
    (∀ (a : ActivityDetail) (st : Streams) (hb : Bool),
       a.device_watts = none → a.has_heartrate = some hb →
       ∃ st2, detect_activity_streams a st = some st2 ∧ st2.watts = 0) ∧
    (∀ (a : ActivityDetail) (st : Streams),
       a.has_heartrate = none → detect_activity_streams a st = none) := by
  constructor
  · intro a st hb hw hhb
    refine ⟨Streams.mk st.latlng st.altitude (if hb = true then 1 else 0)
      (if a.average_cadence.isSome then 1 else 0) 0
      (if a.average_temp.isSome then 1 else 0), ?_, rfl⟩
    simp [detect_activity_streams, hhb, hw]
  · intro a st h
    simp [detect_activity_streams, h]

/-- C9 witness: a detail without `device_watts` but with `has_heartrate`
succeeds with watts 0; a detail without `has_heartrate` fails. -/
theorem c9_witness :
    (∃ st2, detect_activity_streams actPlain initStreams = some st2 ∧ st2.watts = 0) ∧
    detect_activity_streams actNoHr initStreams = none := by
  exact ⟨c9_heartrate_key_required.1 actPlain initStreams false rfl rfl,
    c9_heartrate_key_required.2 actNoHr initStreams rfl⟩

/-- C10: the output file path is the caller-provided name with `.gpx`
appended (default name `build`); the header write and the body/footer append
target that same path, and the success report names it. -/
theorem c10_output_path (activity : ActivityDetail) (stIn : Streams) (ds : DataStreams)
    (output : String) :
    (write_to_gpx activity stIn ds output).headerPath = output ++ ".gpx" ∧
    (∀ p, (write_to_gpx activity stIn ds output).appendPath = some p →
       p = output ++ ".gpx") ∧
    ((write_to_gpx activity stIn ds output).success = true →
       (write_to_gpx activity stIn ds output).message =
         "GPX file " ++ (output ++ ".gpx") ++ " saved successfully.") ∧
    write_to_gpx_default activity stIn ds = write_to_gpx activity stIn ds "build" := by
  cases hd : detect_activity_streams activity stIn with
  | none => simp [write_to_gpx, hd, write_to_gpx_default]
  | some st2 =>
    by_cases hsz : ds.latlng.original_size ≠ ds.time.original_size
    · simp [write_to_gpx, hd, hsz, write_to_gpx_default]
    · cases hb : buildTrkpts st2 activity ds with
      | none => simp [write_to_gpx, hd, hsz, hb, write_to_gpx_default]
      | some pts => simp [write_to_gpx, hd, hsz, hb, write_to_gpx_default]

/-- C10 witness: a successful export to name `out` writes header and body to
`out.gpx` and reports that path; the default name is `build`. -/
theorem c10_witness :
    (write_to_gpx actPlain initStreams dsOk "out").headerPath = "out.gpx" ∧
    (write_to_gpx actPlain initStreams dsOk "out").message =
      "GPX file out.gpx saved successfully." ∧
    write_to_gpx_default actPlain initStreams dsOk =
      write_to_gpx actPlain initStreams dsOk "build" := by
  have h := c10_output_path actPlain initStreams dsOk "out"
  refine ⟨h.1.trans (by decide), ?_, h.2.2.2⟩
  exact (h.2.2.1 (by decide)).trans (by decide)

/-- C4 counterexample: with no access token held, `get_data_stream` performs
no token refresh before its request — its request trace is the bare GET. -/
theorem c4_counterexample :
    ApiEvent.refreshToken ∉ get_data_stream_events none initStreams 12345 ∧
    get_data_stream_events none initStreams 12345 =
      [ApiEvent.get (streamUrl initStreams 12345)] := by
  exact ⟨by decide, rfl⟩

/-- C4 (amended): the stream fetch issues its GET with whatever token is held
and never refreshes first (the lazy refresh lives in the activities-page
fetch instead); its query is the key list `time` plus every enabled channel,
comma-joined, with `key_by_type=true`. -/
theorem c4_stream_fetch_request (tok : Option String) (st : Streams) (id : Nat) :
    get_data_stream_events tok st id = [ApiEvent.get (streamUrl st id)] ∧
    ApiEvent.refreshToken ∉ get_data_stream_events tok st id ∧
    stream_query_params st = joinCommas (streamKeys st) ∧
    streamUrl st id = "https://www.strava.com/api/v3/activities/" ++ Nat.repr id
      ++ "/streams?keys=" ++ stream_query_params st ++ "&key_by_type=true" ∧
    get_strava_activities_events none =
      [ApiEvent.refreshToken,
       ApiEvent.get "https://www.strava.com/api/v3/athlete/activities"] := by
  refine ⟨rfl, by simp [get_data_stream_events], ?_, rfl, rfl⟩
  simp [stream_query_params, streamKeys, joinCommas, List.foldl_map]

/-- C4 witness: the amended statement at a concrete state with heart rate
enabled: keys are time, latlng, altitude, heartrate. -/
theorem c4_witness :
    get_data_stream_events (some "tok") ⟨1, 1, 1, 0, 0, 0⟩ 42 =
      [ApiEvent.get (streamUrl ⟨1, 1, 1, 0, 0, 0⟩ 42)] ∧
    stream_query_params ⟨1, 1, 1, 0, 0, 0⟩ = "time,latlng,altitude,heartrate" ∧
    streamKeys ⟨1, 1, 1, 0, 0, 0⟩ = ["time", "latlng", "altitude", "heartrate"] ∧
    streamUrl ⟨1, 1, 1, 0, 0, 0⟩ 42 =
      "https://www.strava.com/api/v3/activities/42/streams?keys=time,latlng,altitude,heartrate&key_by_type=true" := by
  have h := c4_stream_fetch_request (some "tok") ⟨1, 1, 1, 0, 0, 0⟩ 42
  refine ⟨h.1, by decide, by decide, ?_⟩
  exact h.2.2.2.1.trans (by decide)

/-- C5: the activity lister pages from 1 at 200 items per page, accumulates
each page's projected summaries, stops at the first empty page, and returns
the accumulated sequence in order, having requested each page exactly once. -/
theorem c5_pagination (f : Nat → List ActivityItem) (n fuel : Nat)
    (hne : ∀ j, j < n → f (1 + j) ≠ [])
    (hempty : f (1 + n) = [])
    (hfuel : n < fuel) :
    get_activities_list f fuel =
      some ((((List.range' 1 (n + 1)).map (fun p => (f p).map summarize)).flatten),
            (List.range' 1 (n + 1)).map (fun p => (p, 200))) := by
  have h := get_activities_list_loop_spec f n fuel 1 ((f 1).map summarize) [(1, 200)]
    hfuel hne hempty
  have hr : List.range' 1 (n + 1) = 1 :: List.range' 2 n := List.range'_succ _ _ _
  rw [get_activities_list, h, hr]
  simp

/-- C5 witness: the mocked endpoint (200, then 50, then 0 items) yields
exactly 250 summaries from exactly the 3 page requests (1,200) (2,200)
(3,200). -/
theorem c5_witness :
    get_activities_list mockPages 3 =
      some (List.replicate 250 (summarize mockItem), [(1, 200), (2, 200), (3, 200)]) ∧
    (List.replicate 250 (summarize mockItem)).length = 250 := by
  have h := c5_pagination mockPages 2 3 (by decide) (by decide) (by omega)
  have h1 : List.range' 1 3 = [1, 2, 3] := rfl
  rw [h1] at h
  have e1 : (mockPages 1).map summarize = List.replicate 200 (summarize mockItem) := by
    rw [show mockPages 1 = List.replicate 200 mockItem from rfl, List.map_replicate]
  have e2 : (mockPages 2).map summarize = List.replicate 50 (summarize mockItem) := by
    rw [show mockPages 2 = List.replicate 50 mockItem from rfl, List.map_replicate]
  have e3 : (mockPages 3).map summarize = ([] : List ActivitySummary) := rfl
  constructor
  · rw [h]
    have hflat : (List.map (fun p => (mockPages p).map summarize) [1, 2, 3]).flatten
        = List.replicate 250 (summarize mockItem) := by
      rw [List.map_cons, List.map_cons, List.map_cons, List.map_nil, e1, e2, e3]
      rw [List.flatten_cons, List.flatten_cons, List.flatten_cons, List.flatten_nil]
      rw [List.append_nil, List.append_nil, ← List.replicate_add]
    rw [hflat]
    rfl
  · rw [List.length_replicate]

/-- C1 counterexample: an enabled channel other than latlng (altitude, always
enabled) with `original_size` different from time's does not abort the
export: the export succeeds, silently truncating the altitude channel. -/
theorem c1_counterexample :
    dsTruncAlt.altitude.original_size ≠ dsTruncAlt.time.original_size ∧
    (write_to_gpx actPlain initStreams dsTruncAlt "build").success = true ∧
    (write_to_gpx actPlain initStreams dsTruncAlt "build").trkpts.length
      = dsTruncAlt.time.original_size := by
  exact ⟨by decide, by decide, by decide⟩

/-- C1 (amended): only `latlng.original_size` is compared with
`time.original_size`; that single mismatch aborts the export, while a
mismatched `original_size` on altitude or any optional channel is never
consulted — given enough data entries the export succeeds over
`time.original_size` samples regardless of those counts. -/
theorem c1_only_latlng_size_checked (activity : ActivityDetail) (stIn : Streams)
    (ds : DataStreams) (output : String) (st2 : Streams) (dt : DateTime)
    (hdet : detect_activity_streams activity stIn = some st2)
    (hpt : fromisoformat activity.start_date = some dt) :
    (ds.latlng.original_size ≠ ds.time.original_size →
       (write_to_gpx activity stIn ds output).success = false ∧
       (write_to_gpx activity stIn ds output).trkpts = [] ∧
       (write_to_gpx activity stIn ds output).message
         = "Error: latlng does not equal Time") ∧
    (ds.latlng.original_size = ds.time.original_size →
     ds.time.original_size ≤ ds.time.data.length →
     ds.time.original_size ≤ ds.latlng.data.length →
     ds.time.original_size ≤ ds.altitude.data.length →
     (st2.temp = 1 → ds.time.original_size ≤ ds.temp.data.length) →
     (st2.watts = 1 → ds.time.original_size ≤ ds.watts.data.length) →
     (st2.heartrate = 1 → ds.time.original_size ≤ ds.heartrate.data.length) →
     (st2.cadence = 1 → ds.time.original_size ≤ ds.cadence.data.length) →
       (write_to_gpx activity stIn ds output).success = true ∧
       (write_to_gpx activity stIn ds output).trkpts.length
         = ds.time.original_size) := by
  constructor
  · intro h
    simp [write_to_gpx, hdet, h]
  · intro hsz hT hL hA h1 h2 h3 h4
    obtain ⟨pts, hpts, hlen, hget, hres⟩ := write_to_gpx_success activity stIn ds output
      st2 dt hdet hpt hsz hT hL hA h1 h2 h3 h4
    rw [hres]
    exact ⟨rfl, hlen⟩

/-- C1 witness: the amended statement at the altitude-truncating fixture:
latlng matches time, altitude's count (3) does not, yet the export succeeds
with one waypoint. -/
theorem c1_witness :
    (write_to_gpx actPlain initStreams dsTruncAlt "build").success = true ∧
    (write_to_gpx actPlain initStreams dsTruncAlt "build").trkpts.length
      = dsTruncAlt.time.original_size := by
  have h := c1_only_latlng_size_checked actPlain initStreams dsTruncAlt "build"
    ⟨1, 1, 0, 0, 0, 0⟩ ⟨2021, 1, 1, 0, 0, 0⟩ (by decide) (by decide)
  exact h.2 (by decide) (by decide) (by decide) (by decide)
    (by decide) (by decide) (by decide) (by decide)

/-- C3: on a consistent payload (`latlng.original_size = time.original_size
= N` with data present) the renderer emits exactly N waypoints; each carries
latitude and longitude formatted to exactly 7 decimal places, elevation to
exactly 1 decimal place, and the timestamp computed from the activity start
plus the time sample; the timestamp arithmetic renders start
"2021-01-01T00:00:00" plus 65 seconds as "2021-01-01T00:01:05Z" (trailing
"Z", no "+00:00"). -/
theorem c3_renderer_output (activity : ActivityDetail) (stIn : Streams) (ds : DataStreams)
    (output : String) (st2 : Streams) (dt : DateTime)
    (hdet : detect_activity_streams activity stIn = some st2)
    (hpt : fromisoformat activity.start_date = some dt)
    (hsz : ds.latlng.original_size = ds.time.original_size)
    (hT : ds.time.original_size ≤ ds.time.data.length)
    (hL : ds.time.original_size ≤ ds.latlng.data.length)
    (hA : ds.time.original_size ≤ ds.altitude.data.length)
    (h1 : st2.temp = 1 → ds.time.original_size ≤ ds.temp.data.length)
    (h2 : st2.watts = 1 → ds.time.original_size ≤ ds.watts.data.length)
    (h3 : st2.heartrate = 1 → ds.time.original_size ≤ ds.heartrate.data.length)
    (h4 : st2.cadence = 1 → ds.time.original_size ≤ ds.cadence.data.length) :
    (write_to_gpx activity stIn ds output).trkpts.length = ds.time.original_size ∧
    (∀ i, i < ds.time.original_size →
      ∃ p t ll alt,
        (write_to_gpx activity stIn ds output).trkpts[i]? = some p ∧
        ds.time.data[i]? = some t ∧ ds.latlng.data[i]? = some ll ∧
        ds.altitude.data[i]? = some alt ∧
        p.lat = formatFixed 7 ll.1 ∧ p.lon = formatFixed 7 ll.2 ∧
        p.ele = formatFixed 1 alt ∧
        hasDecimals p.lat 7 ∧ hasDecimals p.lon 7 ∧ hasDecimals p.ele 1 ∧
        add_seconds_to_timestamp activity.start_date t = some p.time) ∧
    add_seconds_to_timestamp "2021-01-01T00:00:00" 65 = some "2021-01-01T00:01:05Z" := by
  obtain ⟨pts, hpts, hlen, hget, hres⟩ := write_to_gpx_success activity stIn ds output
    st2 dt hdet hpt hsz hT hL hA h1 h2 h3 h4
  refine ⟨by rw [hres]; exact hlen, ?_, by decide⟩
  intro i hi
  have ht := List.getElem?_eq_getElem (show i < ds.time.data.length by omega)
  have hll := List.getElem?_eq_getElem (show i < ds.latlng.data.length by omega)
  have halt := List.getElem?_eq_getElem (show i < ds.altitude.data.length by omega)
  have hex : (buildExts st2 ds i).isSome := buildExts_isSome st2 ds i
    (fun hf => by have := h1 hf; omega) (fun hf => by have := h2 hf; omega)
    (fun hf => by have := h3 hf; omega) (fun hf => by have := h4 hf; omega)
  obtain ⟨e, he⟩ := Option.isSome_iff_exists.mp hex
  obtain ⟨p, hp, plat, plon, pele, ptime, pexts⟩ :=
    buildTrkpt_some st2 activity ds i dt _ _ _ e hpt ht hll halt he
  refine ⟨p, _, _, _, ?_, ht, hll, halt, plat, plon, pele, ?_, ?_, ?_, ptime⟩
  · rw [hres]
    show pts[i]? = some p
    rw [hget i hi, hp]
  · rw [plat]; exact formatFixed_hasDecimals 7 _
  · rw [plon]; exact formatFixed_hasDecimals 7 _
  · rw [pele]; exact formatFixed_hasDecimals 1 _

/-- C3 witness: the two-sample fixture renders exactly 2 waypoints and the
concrete timestamp example holds. -/
theorem c3_witness :
    (write_to_gpx actPlain initStreams dsOk "build").trkpts.length
      = dsOk.time.original_size ∧
    add_seconds_to_timestamp "2021-01-01T00:00:00" 65 = some "2021-01-01T00:01:05Z" := by
  have h := c3_renderer_output actPlain initStreams dsOk "build"
    ⟨1, 1, 0, 0, 0, 0⟩ ⟨2021, 1, 1, 0, 0, 0⟩ (by decide) (by decide) (by decide)
    (by decide) (by decide) (by decide) (by decide) (by decide) (by decide) (by decide)
  exact ⟨h.1, h.2.2⟩

/-- C7: in every emitted waypoint, exactly the enabled channels' extension
elements appear, in the fixed order temperature, power, heart rate,
cadence. -/
theorem c7_extension_order (activity : ActivityDetail) (stIn : Streams) (ds : DataStreams)
    (output : String) (p : Trkpt)
    (hp : p ∈ (write_to_gpx activity stIn ds output).trkpts) :
    ∃ st2, detect_activity_streams activity stIn = some st2 ∧
      p.exts.map ExtElem.tag =
        [ExtTag.atemp, ExtTag.watts, ExtTag.hr, ExtTag.cad].filter
          (fun tg => extFlag st2 tg == 1) := by
  rcases hd : detect_activity_streams activity stIn with _ | st2
  · have hnil : (write_to_gpx activity stIn ds output).trkpts = [] := by
      simp [write_to_gpx, hd]
    rw [hnil] at hp
    simp at hp
  · by_cases hsz : ds.latlng.original_size ≠ ds.time.original_size
    · have hnil : (write_to_gpx activity stIn ds output).trkpts = [] := by
        simp [write_to_gpx, hd, hsz]
      rw [hnil] at hp
      simp at hp
    · rcases hb : buildTrkpts st2 activity ds with _ | pts
      · have hnil : (write_to_gpx activity stIn ds output).trkpts = [] := by
          simp [write_to_gpx, hd, hsz, hb]
        rw [hnil] at hp
        simp at hp
      · have htr : (write_to_gpx activity stIn ds output).trkpts = pts := by
          simp [write_to_gpx, hd, hsz, hb]
        rw [htr] at hp
        obtain ⟨i, hi, hfi⟩ := buildRange_mem (buildTrkpt st2 activity ds)
          ds.time.original_size pts p hb hp
        exact ⟨st2, rfl, buildExts_tags st2 ds i p.exts
          (buildTrkpt_exts st2 activity ds i p hfi)⟩

/-- C7 witness: with only heart rate and cadence enabled, the emitted
waypoint's extension tags are exactly heart rate then cadence — no
temperature or power elements, heart rate first. -/
theorem c7_witness :
    p0 ∈ (write_to_gpx actHrCad initStreams dsHrCad "out").trkpts ∧
    p0.exts.map ExtElem.tag = [ExtTag.hr, ExtTag.cad] := by
  have h := c7_extension_order actHrCad initStreams dsHrCad "out" p0 (by decide)
  obtain ⟨st2, hst2, htags⟩ := h
  have hdet : detect_activity_streams actHrCad initStreams = some ⟨1, 1, 1, 1, 0, 0⟩ := by
    decide
  rw [hdet] at hst2
  have hs : st2 = ⟨1, 1, 1, 1, 0, 0⟩ := by
    injection hst2 with h2
    exact h2.symm
  subst hs
  refine ⟨by decide, ?_⟩
  rw [htags]
  decide

end Strava2GPX
